import Mathlib

/-!
Verification of the document-processing pipeline (parse, summarize, extract
entities, validate, rollback) of the Gen-AI repository.

Python strings are modelled as lists of characters (a Python `str` is a
sequence of code points). Stateful HTTP calls are modelled by making the
upstream response an explicit argument, and the payload that would be sent
upstream an explicit result. Python exceptions are modelled with `Except`.

Each embedded definition names the source function it was translated from:
  - `pySplit`           : Python `str.split()` with no argument (runs of
                          whitespace separate tokens, no empty tokens)
  - `pyStrip`           : Python `str.strip()` (remove leading and trailing
                          whitespace)
  - `validate_summary`, `validate_entities`, `rollback_summary`,
    `rollback_entities` : backend/agents/validation_agent.py
  - `parse_pdf`, `parse_docx`, `parse`, `ParseError`
                        : backend/agents/parser_agent.py
  - `summarize_section_sent`, `summarize_document_sent`,
    `summarize_corpus_sent`, `callLLM_sent`, `summarizer_handle`
                        : backend/agents/summarizer_agent.py
  - `qa_ask`            : backend/agents/qa_agent.py
  - `extract`           : backend/agents/entity_agent.py
  - `uploadPostStage`   : backend/routes/documents.py (upload_document,
                          the validate/rollback stage after parsing)
-/

namespace GenAI

/-- Whitespace test used by the Python string model (`str.split()`,
`str.strip()`): space, tab, carriage return, newline, vertical tab,
form feed, as in Python `str.isspace` for the ASCII range. -/
def isWS (c : Char) : Bool :=
  c = ' ' || c = '\t' || c = '\r' || c = '\n' || c = '\x0b' || c = '\x0c'

/-- Auxiliary for `pySplit`: `w` is the current word read so far, reversed. -/
def splitAux (w : List Char) : List Char → List (List Char)
  | [] => if w.isEmpty then [] else [w.reverse]
  | c :: cs =>
    if isWS c then
      if w.isEmpty then splitAux [] cs else w.reverse :: splitAux [] cs
    else
      splitAux (c :: w) cs

/-- Python `str.split()` with no argument: split on runs of whitespace,
dropping leading and trailing whitespace, producing no empty tokens. -/
def pySplit (s : List Char) : List (List Char) :=
  splitAux [] s

/-- Python `str.strip()`: drop trailing whitespace (via reverse), then drop
leading whitespace. -/
def pyStrip (s : List Char) : List Char :=
  ((s.reverse.dropWhile isWS).reverse).dropWhile isWS

/-- Fixed rollback text returned by `ValidationAgent.rollback_summary`
(backend/agents/validation_agent.py). -/
def rollback_summary : List Char := "Summary rolled back due to low quality.".toList

/-- Fixed rollback text returned by `ValidationAgent.rollback_entities`
(backend/agents/validation_agent.py). -/
def rollback_entities : List Char := "Entities rolled back due to low confidence.".toList

/-- Model of `ValidationAgent.validate_summary` (backend/agents/validation_agent.py):
`ok = bool(summary and len(summary.split()) > 5)`.  A `None` argument is
modelled by `none`; the Python truthiness test on a string is the
non-emptiness test. -/
def validate_summary : Option (List Char) → Bool
  | none => false
  | some s => !s.isEmpty && decide (5 < (pySplit s).length)

/-- A Python value stored in an entities dictionary: either a string or a
list of strings.  `len` applies to both, as in Python. -/
inductive PyVal where
  | str (s : List Char)
  | strList (l : List (List Char))
deriving DecidableEq

/-- Python `len` on a `PyVal`. -/
def PyVal.len : PyVal → Nat
  | .str s => s.length
  | .strList l => l.length

/-- A Python dictionary with string keys, in insertion order. -/
def PyDict := List (String × PyVal)
deriving DecidableEq

/-- Model of `ValidationAgent.validate_entities` (backend/agents/validation_agent.py):
`ok = any(len(v) > 0 for v in entities.values())`. -/
def validate_entities (entities : PyDict) : Bool :=
  List.any entities (fun kv => kv.2.len != 0)

/-- The user content actually posted upstream by `SummarizerAgent._call_llm`
(backend/agents/summarizer_agent.py line 144): `user_content[:4000]`. -/
def callLLM_sent (user_content : List Char) : List Char :=
  user_content.take 4000

/-- User content sent upstream by `SummarizerAgent.summarize_section`:
the section prompt plus the text, through `_call_llm`. -/
def summarize_section_sent (text : List Char) : List Char :=
  callLLM_sent ("Summarize this section:\n".toList ++ text)

/-- User content sent upstream by `SummarizerAgent.summarize_document`:
the document prompt plus the text, through `_call_llm`. -/
def summarize_document_sent (text : List Char) : List Char :=
  callLLM_sent ("Provide a section-wise summary of this document:\n".toList ++ text)

/-- Python `sep.join(chunks)`: the chunks with `sep` between consecutive
chunks, nothing before the first or after the last. -/
def pyJoin (sep : List Char) : List (List Char) → List Char
  | [] => []
  | [x] => x
  | x :: y :: rest => x ++ sep ++ pyJoin sep (y :: rest)

/-- The separator `"\n\n"` used by `SummarizerAgent.summarize_corpus`. -/
def blankLineSep : List Char := "\n\n".toList

/-- User content sent upstream by `SummarizerAgent.summarize_corpus`:
`joined = "\n\n".join(texts)`, then the corpus prompt plus `joined`,
through `_call_llm`. -/
def summarize_corpus_sent (texts : List (List Char)) : List Char :=
  callLLM_sent ("Summarize across documents:\n".toList ++ pyJoin blankLineSep texts)

/-- The upstream outcome observed by `SummarizerAgent._call_llm`: an HTTP
response (status, raw body text, and the extracted message content used on
the 200 path), a `requests` exception, or any other exception. -/
inductive LLMReply where
  | httpResponse (status : Nat) (body : List Char) (content : List Char)
  | requestException (msg : List Char)
  | otherException (msg : List Char)

/-- Response handling of `SummarizerAgent._call_llm`
(backend/agents/summarizer_agent.py lines 157 to 166): on status 200 strip
the content and substitute a sentinel when empty; otherwise return
a failure string embedding the raw body; exceptions become descriptive
strings. -/
def summarizer_handle : LLMReply → List Char
  | .httpResponse status body content =>
    if status = 200 then
      let output := pyStrip content
      if output.isEmpty then "No summary generated.".toList else output
    else
      "Summarization failed: ".toList ++ body
  | .requestException m => "Summarization failed due to network error: ".toList ++ m
  | .otherException m => "Summarization failed due to unexpected error: ".toList ++ m

/-- Does `pat` occur at the start of `s`? (Used to model Python string
prefix tests on character lists.) -/
def startsWith : List Char → List Char → Bool
  | [], _ => true
  | _ :: _, [] => false
  | a :: as, b :: bs => a == b && startsWith as bs

/-- Python `s.endswith(pat)`. -/
def endsWith (pat s : List Char) : Bool :=
  startsWith pat.reverse s.reverse

/-- Does `needle` occur contiguously anywhere in `hay`? (Python `in`.) -/
def strContains (hay needle : List Char) : Bool :=
  startsWith needle hay ||
    match hay with
    | [] => false
    | _ :: t => strContains t needle

/-- The typed errors raised by `ParserAgent.parse`
(backend/utils/exceptions.py): `UnsupportedFileFormatError` for an
unrecognized extension, `DocumentParsingError` for an underlying parse
failure. -/
inductive ParseError where
  | unsupportedFileFormat (msg : List Char)
  | documentParsing (msg : List Char)
deriving DecidableEq

/-- Page loop of `ParserAgent._parse_pdf`
(backend/agents/parser_agent.py lines 94 to 100): starting from the empty
string, append each page text followed by a newline, then `strip()` the
result.  The argument is the per-page text delivered by the PDF library. -/
def parse_pdf (pages : List (List Char)) : List Char :=
  pyStrip (List.flatten (pages.map (fun p => p ++ ['\n'])))

/-- Paragraph join of `ParserAgent._parse_docx`
(backend/agents/parser_agent.py line 128):
newline-join of the non-empty paragraph texts. -/
def parse_docx (paras : List (List Char)) : List Char :=
  pyJoin ['\n'] (paras.filter (fun p => !p.isEmpty))

/-- Model of `ParserAgent.parse` (backend/agents/parser_agent.py lines 59 to 66):
dispatch on the file-name extension; each recognized branch consumes the
file through its library, whose outcome (extracted data, or the message of
the exception it raised) is passed here as an explicit `Except` argument;
an unrecognized extension raises `UnsupportedFileFormatError` without
consulting any of the file contents. -/
def parse (file_path : List Char)
    (pdfFile : Except (List Char) (List (List Char)))
    (docxFile : Except (List Char) (List (List Char)))
    (htmlFile : Except (List Char) (List Char)) : Except ParseError (List Char) :=
  if endsWith ".pdf".toList file_path then
    match pdfFile with
    | .ok pages => .ok (parse_pdf pages)
    | .error e => .error (.documentParsing ("Failed parsing PDF: ".toList ++ e))
  else if endsWith ".docx".toList file_path then
    match docxFile with
    | .ok paras => .ok (parse_docx paras)
    | .error e => .error (.documentParsing ("Failed parsing DOCX: ".toList ++ e))
  else if endsWith ".html".toList file_path then
    match htmlFile with
    | .ok t => .ok t
    | .error e => .error (.documentParsing ("Failed parsing HTML: ".toList ++ e))
  else
    .error (.unsupportedFileFormat ("Unsupported file: ".toList ++ file_path))

/-- Result of `QAAgent.ask` (backend/agents/qa_agent.py): either an early
sentinel string returned before any upstream call, or an upstream request
carrying the composed user content. -/
inductive QAOutcome where
  | sentinel (msg : List Char)
  | upstream (payload : List Char)
deriving DecidableEq

/-- Input guards and request composition of `QAAgent.ask`
(backend/agents/qa_agent.py lines 68 to 92): a blank question returns
"No question provided.", then a blank document returns
"No document content available.", both before the HTTP call; otherwise the
user content is the document truncated to 4000 characters plus the
question. -/
def qa_ask (question doc_text : List Char) : QAOutcome :=
  if (pyStrip question).isEmpty then
    .sentinel "No question provided.".toList
  else if (pyStrip doc_text).isEmpty then
    .sentinel "No document content available.".toList
  else
    .upstream ("Document:\n".toList ++ doc_text.take 4000 ++
      "\n\nQuestion: ".toList ++ question)

/-- ASCII upper-case letter, the class written `[A-Z]` in the extraction
patterns of `EntityAgent.extract`. -/
def isUpperChar (c : Char) : Bool := 'A' ≤ c && c ≤ 'Z'

/-- ASCII lower-case letter, the class written `[a-z]`. -/
def isLowerChar (c : Char) : Bool := 'a' ≤ c && c ≤ 'z'

/-- ASCII digit, the class written `\d` (the inputs at issue are ASCII). -/
def isDigitChar (c : Char) : Bool := '0' ≤ c && c ≤ '9'

/-- ASCII letter, the class written `[A-Za-z]`. -/
def isAsciiLetter (c : Char) : Bool := isUpperChar c || isLowerChar c

/-- Word character for the `\b` boundary assertion of the regular
expressions: letter, digit, or underscore. -/
def isWordChar (c : Char) : Bool := isAsciiLetter c || isDigitChar c || c = '_'

/-- A `\b` assertion succeeds before a word character when the previous
character (none at the start of the text) is not a word character. -/
def boundaryBeforeWord : Option Char → Bool
  | none => true
  | some c => !isWordChar c

/-- A `\b` assertion succeeds after a word character when the following
text is exhausted or starts with a non-word character. -/
def boundaryAfter : List Char → Bool
  | [] => true
  | c :: _ => !isWordChar c

/-- Matcher for the name pattern of `EntityAgent.extract`
(backend/agents/entity_agent.py line 68), the regular expression
`\b[A-Z][a-z]+ [A-Z][a-z]+\b` anchored at the current position, given the
previous character.  The greedy `[a-z]+` runs are followed by characters
disjoint from the class (a space, and a position where every shorter match
also fails the boundary), so the greedy take is exact and no backtracking
arises. -/
def matchNameAt (prev : Option Char) : List Char → Option (List Char × List Char)
  | c :: cs =>
    if boundaryBeforeWord prev && isUpperChar c then
      let low1 := cs.takeWhile isLowerChar
      if low1.isEmpty then none else
      match cs.dropWhile isLowerChar with
      | ' ' :: d :: r2 =>
        if isUpperChar d then
          let low2 := r2.takeWhile isLowerChar
          let r3 := r2.dropWhile isLowerChar
          if low2.isEmpty then none else
          if boundaryAfter r3 then
            some (c :: low1 ++ ' ' :: d :: low2, r3)
          else none
        else none
      | _ => none
    else none
  | [] => none

/-- Matcher for the date pattern of `EntityAgent.extract`
(backend/agents/entity_agent.py line 71): one or two digits, a dash or
slash, one or two digits, a dash or slash, two to four digits, with word
boundaries at both ends, anchored at the current position.  A digit run
longer than the counted bound cannot match (every shorter greedy take
leaves a digit, which fails the following separator or boundary), so each
digit quantifier must consume its entire run, within the bounds. -/
def matchDateAt (prev : Option Char) (s : List Char) : Option (List Char × List Char) :=
  if !boundaryBeforeWord prev then none else
  let d1 := s.takeWhile isDigitChar
  if d1.length = 0 || 2 < d1.length then none else
  match s.dropWhile isDigitChar with
  | s1 :: r2 =>
    if !(s1 == '-' || s1 == '/') then none else
    let d2 := r2.takeWhile isDigitChar
    if d2.length = 0 || 2 < d2.length then none else
    match r2.dropWhile isDigitChar with
    | s2 :: r4 =>
      if !(s2 == '-' || s2 == '/') then none else
      let d3 := r4.takeWhile isDigitChar
      let r5 := r4.dropWhile isDigitChar
      if d3.length < 2 || 4 < d3.length then none else
      if boundaryAfter r5 then some (d1 ++ s1 :: (d2 ++ s2 :: d3), r5) else none
    | [] => none
  | [] => none

/-- The alternation `(?: Corp| Inc| Ltd| University)` of the organization
pattern, alternatives in source order. -/
def orgAlts : List (List Char) :=
  [" Corp".toList, " Inc".toList, " Ltd".toList, " University".toList]

/-- Try the alternation suffixes in order at the given position; an
alternative succeeds when it is present literally and the `\b` after it
holds. -/
def matchOrgSuffix : List (List Char) → List Char → Option (List Char × List Char)
  | [], _ => none
  | alt :: alts, r =>
    if startsWith alt r then
      let rest := r.drop alt.length
      if boundaryAfter rest then some (alt, rest) else matchOrgSuffix alts r
    else matchOrgSuffix alts r

/-- Matcher for the organization pattern of `EntityAgent.extract`
(backend/agents/entity_agent.py line 74), the regular expression
`\b[A-Z][A-Za-z]+(?: Corp| Inc| Ltd| University)\b` anchored at the
current position.  The greedy `[A-Za-z]+` is followed by alternatives all
starting with a space, disjoint from the letter class, so the greedy take
is exact. -/
def matchOrgAt (prev : Option Char) : List Char → Option (List Char × List Char)
  | c :: cs =>
    if boundaryBeforeWord prev && isUpperChar c then
      let letters := cs.takeWhile isAsciiLetter
      if letters.isEmpty then none else
      match matchOrgSuffix orgAlts (cs.dropWhile isAsciiLetter) with
      | some (alt, rest) => some (c :: letters ++ alt, rest)
      | none => none
    else none
  | [] => none

/-- The scan of `re.findall`: attempt a match at each position from the
left; on success record the match and resume right after it, otherwise
advance one character.  The fuel argument bounds the number of steps; every
step consumes at least one input character, so `length + 1` fuel is never
exhausted. -/
def scanAux (matchAt : Option Char → List Char → Option (List Char × List Char)) :
    Nat → Option Char → List Char → List (List Char)
  | 0, _, _ => []
  | _ + 1, _, [] => []
  | fuel + 1, prev, c :: cs =>
    match matchAt prev (c :: cs) with
    | some (m, rest) =>
      m :: scanAux matchAt fuel (match m.getLast? with
        | some d => some d
        | none => some c) rest
    | none => scanAux matchAt fuel (some c) cs

/-- Model of `re.findall(pattern, text)` for one of the three extraction patterns,
as the scan from the start of the text with no previous character. -/
def findAll (matchAt : Option Char → List Char → Option (List Char × List Char))
    (s : List Char) : List (List Char) :=
  scanAux matchAt (s.length + 1) none s

/-- The three-category extraction result of `EntityAgent.extract`. -/
structure EntitySet where
  names : List (List Char)
  dates : List (List Char)
  organizations : List (List Char)
deriving DecidableEq

/-- Model of `EntityAgent.extract` (backend/agents/entity_agent.py lines 67 to 85):
run the three `re.findall` patterns and de-duplicate each result list
(`list(set(...))`; the Lean model de-duplicates with `List.dedup`, which
agrees with the Python set conversion up to order, and order is not part
of any claim). -/
def extract (text : List Char) : EntitySet where
  names := (findAll matchNameAt text).dedup
  dates := (findAll matchDateAt text).dedup
  organizations := (findAll matchOrgAt text).dedup

/-- The dictionary shape in which `EntityAgent.extract` returns an
`EntitySet`: the keys names, dates, organizations in insertion order. -/
def EntitySet.toDict (e : EntitySet) : PyDict :=
  [("names", .strList e.names), ("dates", .strList e.dates),
    ("organizations", .strList e.organizations)]

/-- The replacement record built by `upload_document` on entity rollback
(backend/routes/documents.py line 44). -/
def rollbackEntitiesDict : PyDict :=
  [("error", PyVal.str rollback_entities)]

/-- The validate-and-rollback stage of `upload_document`
(backend/routes/documents.py lines 36 to 51) after parsing: the raw
summary returned by the summarizer is replaced by the fixed rollback text
when `validate_summary` fails, and the extracted entities are replaced by
the error record when `validate_entities` fails.  The resulting pair is
both stored in `documents_store` and returned. -/
def uploadPostStage (rawSummary text : List Char) : (List Char) × PyDict :=
  let summary := if validate_summary (some rawSummary) then rawSummary else rollback_summary
  let entities0 := (extract text).toDict
  let entities := if validate_entities entities0 then entities0 else rollbackEntitiesDict
  (summary, entities)

end GenAI

namespace GenAI

/-- Claim C2: `validate_summary` passes exactly on a present, non-empty text
with strictly more than 5 whitespace-delimited tokens; 5 tokens fail,
6 tokens pass, empty and `None` fail. -/
theorem validate_summary_spec :
    (∀ o : Option (List Char), validate_summary o = true ↔
        ∃ s, o = some s ∧ s ≠ [] ∧ 5 < (pySplit s).length) ∧
    validate_summary (some "one two three four five".toList) = false ∧
    validate_summary (some "one two three four five six".toList) = true ∧
    validate_summary (some "".toList) = false ∧
    validate_summary none = false := by
  refine ⟨?_, by decide, by decide, by decide, rfl⟩
  intro o
  cases o with
  | none => simp [validate_summary]
  | some s => simp [validate_summary, List.isEmpty_iff]

/-- Claim C1, counterexample: `summarize_corpus` does not send the joined
text upstream untruncated.  For a single input document of 4001 characters,
the user content actually sent has length 4000, while the prompt plus the
blank-line join has length 4029, so the sent content is not the untruncated
prompt plus join. -/
theorem summarize_corpus_not_untruncated :
    (summarize_corpus_sent [List.replicate 4001 'a']).length = 4000 ∧
    ("Summarize across documents:\n".toList ++
        pyJoin blankLineSep [List.replicate 4001 'a']).length = 4029 ∧
    ¬ (summarize_corpus_sent [List.replicate 4001 'a'] =
        "Summarize across documents:\n".toList ++
          pyJoin blankLineSep [List.replicate 4001 'a']) := by
  have hj : pyJoin blankLineSep [List.replicate 4001 'a'] =
      List.replicate 4001 'a' := rfl
  have hp : ("Summarize across documents:\n".toList).length = 28 := by decide
  have hlen : ("Summarize across documents:\n".toList ++
      pyJoin blankLineSep [List.replicate 4001 'a']).length = 4029 := by
    rw [hj, List.length_append, hp, List.length_replicate]
  have hsent : (summarize_corpus_sent [List.replicate 4001 'a']).length = 4000 := by
    show (("Summarize across documents:\n".toList ++
        pyJoin blankLineSep [List.replicate 4001 'a']).take 4000).length = 4000
    rw [List.length_take, hlen]
    norm_num
  refine ⟨hsent, hlen, ?_⟩
  intro h
  have hcontra := congrArg List.length h
  rw [hsent, hlen] at hcontra
  exact absurd hcontra (by norm_num)

/-- Claim C1, amended: all three summarization entry points pass their
composed user content (a fixed prompt plus the payload; for the corpus call
the payload is the blank-line join of the input documents) through the same
4000-character truncation in `_call_llm`, so the sent content never exceeds
4000 characters. -/
theorem summarize_sent_truncation :
    (∀ texts, summarize_corpus_sent texts =
        ("Summarize across documents:\n".toList ++
          pyJoin blankLineSep texts).take 4000) ∧
    (∀ text, summarize_section_sent text =
        ("Summarize this section:\n".toList ++ text).take 4000) ∧
    (∀ text, summarize_document_sent text =
        ("Provide a section-wise summary of this document:\n".toList ++ text).take 4000) ∧
    (∀ texts, (summarize_corpus_sent texts).length ≤ 4000) := by
  refine ⟨fun _ => rfl, fun _ => rfl, fun _ => rfl, fun texts => ?_⟩
  rw [show summarize_corpus_sent texts =
      ("Summarize across documents:\n".toList ++
        pyJoin blankLineSep texts).take 4000 from rfl, List.length_take]
  exact Nat.min_le_left _ _

/-- Claim C7: on a non-success HTTP status the summarizer returns a failure
string embedding the raw response body (a value, not a raised exception). -/
theorem summarize_nonsuccess_embeds_body (status : Nat) (body content : List Char)
    (h : status ≠ 200) :
    summarizer_handle (.httpResponse status body content) =
      "Summarization failed: ".toList ++ body := by
  simp [summarizer_handle, h]

/-- Claim C7, witness: an HTTP 500 response with body
"Internal server error" yields exactly the string
"Summarization failed: Internal server error". -/
theorem summarize_nonsuccess_embeds_body_witness :
    summarizer_handle (.httpResponse 500 "Internal server error".toList []) =
      "Summarization failed: Internal server error".toList :=
  (summarize_nonsuccess_embeds_body 500 "Internal server error".toList []
    (by decide)).trans (by decide)

/-- Appending one whitespace character does not change the stripped text. -/
theorem pyStrip_append_ws (c : Char) (h : isWS c = true) (x : List Char) :
    pyStrip (x ++ [c]) = pyStrip x := by
  simp [pyStrip, List.dropWhile_cons, h]

/-- The page loop of the PDF parser produces the newline-join of the pages
with one extra newline appended (when there is at least one page). -/
theorem flatten_map_newline (pages : List (List Char)) :
    List.flatten (pages.map (fun p => p ++ ['\n'])) =
      if pages.isEmpty then [] else pyJoin ['\n'] pages ++ ['\n'] := by
  induction pages with
  | nil => rfl
  | cons p rest ih =>
    cases rest with
    | nil => simp [pyJoin]
    | cons q rest2 =>
      simp only [List.map_cons, List.flatten_cons] at ih ⊢
      rw [ih]
      simp [pyJoin, List.append_assoc]

/-- Claim C4, counterexample: a final page yielding no text does not
contribute an empty line to the returned string.  With pages "a" and ""
the newline-join with the empty line visible would be "a" followed by a
newline, but `_parse_pdf` returns just "a": the `strip()` at the end of
the page loop removes the trailing newline material. -/
theorem parse_pdf_trailing_empty_page_dropped :
    parse_pdf [['a'], []] = ['a'] ∧
    pyJoin ['\n'] [['a'], []] = ['a', '\n'] ∧
    parse_pdf [['a'], []] ≠ pyJoin ['\n'] [['a'], []] := by
  refine ⟨by decide, by decide, by decide⟩

/-- Claim C4, amended: `_parse_pdf` returns the page texts joined in order
with newline separators and then stripped of leading and trailing
whitespace; interior pages yielding no text still contribute an empty
line, as the concrete three-page case shows, while empty-line material at
either end is removed by the final `strip()`. -/
theorem parse_pdf_join_then_strip :
    (∀ pages, parse_pdf pages = pyStrip (pyJoin ['\n'] pages)) ∧
    parse_pdf [['a'], [], ['b']] = "a\n\nb".toList := by
  constructor
  · intro pages
    cases pages with
    | nil => rfl
    | cons p rest =>
      show pyStrip (List.flatten ((p :: rest).map (fun x => x ++ ['\n']))) = _
      rw [flatten_map_newline, if_neg (by simp)]
      exact pyStrip_append_ws '\n' rfl _
  · decide

/-- Claim C3: in the upload pipeline, a failed summary validation stores
and returns exactly the fixed summary rollback text, and a failed entity
validation stores and returns exactly the error record with the fixed
entity rollback text in place of the three-category EntitySet. -/
theorem upload_rollback_substitution (rawSummary text : List Char) :
    (validate_summary (some rawSummary) = false →
      (uploadPostStage rawSummary text).1 =
        "Summary rolled back due to low quality.".toList) ∧
    (validate_entities (extract text).toDict = false →
      (uploadPostStage rawSummary text).2 =
        [("error", PyVal.str "Entities rolled back due to low confidence.".toList)]) := by
  constructor
  · intro h
    simp [uploadPostStage, h, rollback_summary]
  · intro h
    simp [uploadPostStage, h, rollbackEntitiesDict, rollback_entities]

/-- Claim C3, witness: the two-token summary "Too short" fails validation
and is replaced by the summary rollback text, and the empty document text
yields no entities, so the entity record is replaced by the error
record. -/
theorem upload_rollback_substitution_witness :
    (uploadPostStage "Too short".toList "".toList).1 =
      "Summary rolled back due to low quality.".toList ∧
    (uploadPostStage "Too short".toList "".toList).2 =
      [("error", PyVal.str "Entities rolled back due to low confidence.".toList)] :=
  ⟨(upload_rollback_substitution "Too short".toList "".toList).1 (by decide),
   (upload_rollback_substitution "Too short".toList "".toList).2 (by decide)⟩

/-- The stripped text is empty exactly when every character is
whitespace. -/
theorem pyStrip_eq_nil_iff (s : List Char) :
    pyStrip s = [] ↔ ∀ c ∈ s, isWS c = true := by
  constructor
  · intro h c hc
    simp only [pyStrip] at h
    have h1 : ∀ x ∈ (List.dropWhile isWS s.reverse).reverse, isWS x = true :=
      List.dropWhile_eq_nil_iff.mp h
    have hc2 : c ∈ s.reverse := List.mem_reverse.mpr hc
    rw [← List.takeWhile_append_dropWhile (p := isWS) (l := s.reverse)] at hc2
    rcases List.mem_append.mp hc2 with h3 | h3
    · exact List.mem_takeWhile_imp h3
    · exact h1 c (List.mem_reverse.mpr h3)
  · intro h
    have h2 : List.dropWhile isWS s.reverse = [] :=
      List.dropWhile_eq_nil_iff.mpr (fun x hx => h x (List.mem_reverse.mp hx))
    simp only [pyStrip, h2]
    rfl

/-- Claim C5: a question that is empty or whitespace-only makes
`QAAgent.ask` return exactly "No question provided." for every document
text; a question with some non-whitespace character and a document text
that is empty or whitespace-only returns exactly
"No document content available."; in both situations the result is a
sentinel, never an upstream request. -/
theorem qa_ask_guards (question doc_text : List Char) :
    ((∀ c ∈ question, isWS c = true) →
      qa_ask question doc_text = .sentinel "No question provided.".toList) ∧
    ((¬ ∀ c ∈ question, isWS c = true) → (∀ c ∈ doc_text, isWS c = true) →
      qa_ask question doc_text = .sentinel "No document content available.".toList) ∧
    (((∀ c ∈ question, isWS c = true) ∨ (∀ c ∈ doc_text, isWS c = true)) →
      ∀ p, qa_ask question doc_text ≠ .upstream p) := by
  have hq := pyStrip_eq_nil_iff question
  have hd := pyStrip_eq_nil_iff doc_text
  refine ⟨?_, ?_, ?_⟩
  · intro h
    simp [qa_ask, hq.mpr h]
  · intro hnq hdw
    have h1 : ¬ pyStrip question = [] := fun hh => hnq (hq.mp hh)
    simp [qa_ask, List.isEmpty_iff, h1, hd.mpr hdw]
  · intro h p
    rcases h with h | h
    · simp [qa_ask, hq.mpr h]
    · by_cases hqw : ∀ c ∈ question, isWS c = true
      · simp [qa_ask, hq.mpr hqw]
      · have h1 : ¬ pyStrip question = [] := fun hh => hqw (hq.mp hh)
        simp [qa_ask, List.isEmpty_iff, h1, hd.mpr h]

/-- Claim C5, witness: a whitespace-only question returns the question
sentinel regardless of the document, a real question with a
whitespace-only document returns the document sentinel, and the guarded
call is never an upstream request. -/
theorem qa_ask_guards_witness :
    qa_ask "   ".toList "some doc".toList =
      .sentinel "No question provided.".toList ∧
    qa_ask "What?".toList " \n ".toList =
      .sentinel "No document content available.".toList ∧
    ∀ p, qa_ask "   ".toList "some doc".toList ≠ .upstream p :=
  ⟨(qa_ask_guards "   ".toList "some doc".toList).1 (by decide),
   (qa_ask_guards "What?".toList " \n ".toList).2.1 (by decide) (by decide),
   (qa_ask_guards "   ".toList "some doc".toList).2.2 (Or.inl (by decide))⟩

/-- Claim C6: for a path whose extension is none of .pdf, .docx, .html,
`parse` fails with `UnsupportedFileFormatError`, the result does not
depend on any of the file contents, and the failure is never the distinct
`DocumentParsingError`. -/
theorem parse_unsupported (fp : List Char)
    (pdf1 docx1 : Except (List Char) (List (List Char)))
    (html1 : Except (List Char) (List Char))
    (pdf2 docx2 : Except (List Char) (List (List Char)))
    (html2 : Except (List Char) (List Char))
    (h1 : endsWith ".pdf".toList fp = false)
    (h2 : endsWith ".docx".toList fp = false)
    (h3 : endsWith ".html".toList fp = false) :
    parse fp pdf1 docx1 html1 =
      .error (.unsupportedFileFormat ("Unsupported file: ".toList ++ fp)) ∧
    parse fp pdf1 docx1 html1 = parse fp pdf2 docx2 html2 ∧
    ∀ m, parse fp pdf1 docx1 html1 ≠ .error (.documentParsing m) := by
  have e1 : parse fp pdf1 docx1 html1 =
      .error (.unsupportedFileFormat ("Unsupported file: ".toList ++ fp)) := by
    unfold parse
    rw [h1, h2, h3]
    rfl
  have e2 : parse fp pdf2 docx2 html2 =
      .error (.unsupportedFileFormat ("Unsupported file: ".toList ++ fp)) := by
    unfold parse
    rw [h1, h2, h3]
    rfl
  refine ⟨e1, e1.trans e2.symm, ?_⟩
  intro m hm
  rw [e1] at hm
  simp at hm

/-- Claim C6, witness: the path "file.txt" is rejected with
`UnsupportedFileFormatError` whatever the file contents hold, and the
error is not a `DocumentParsingError`. -/
theorem parse_unsupported_witness :
    parse "file.txt".toList (.ok []) (.ok []) (.ok []) =
      .error (.unsupportedFileFormat
        ("Unsupported file: ".toList ++ "file.txt".toList)) ∧
    parse "file.txt".toList (.ok []) (.ok []) (.ok []) =
      parse "file.txt".toList (.error "boom".toList) (.ok [['x']])
        (.error "e".toList) ∧
    ∀ m, parse "file.txt".toList (.ok []) (.ok []) (.ok []) ≠
      .error (.documentParsing m) :=
  parse_unsupported "file.txt".toList (.ok []) (.ok []) (.ok [])
    (.error "boom".toList) (.ok [['x']]) (.error "e".toList)
    (by decide) (by decide) (by decide)

/-- Claim C8: extracting entities from the round-trip sentence finds the
name "Alice Johnson", the date "12/12/2024", and an organization entry
containing "University". -/
theorem extract_roundtrip_scenario :
    "Alice Johnson".toList ∈
      (extract "Alice Johnson met on 12/12/2024 at OpenAI University.".toList).names ∧
    "12/12/2024".toList ∈
      (extract "Alice Johnson met on 12/12/2024 at OpenAI University.".toList).dates ∧
    ∃ o ∈ (extract "Alice Johnson met on 12/12/2024 at OpenAI University.".toList).organizations,
      strContains o "University".toList = true := by
  exact ⟨by decide, by decide, "OpenAI University".toList, by decide, by decide⟩

/-- Claim C9: on a three-category EntitySet record, `validate_entities`
passes exactly when at least one of the three category lists is
non-empty; in particular the all-empty record fails. -/
theorem validate_entities_spec :
    (∀ n d o : List (List Char),
      validate_entities (EntitySet.toDict ⟨n, d, o⟩) = true ↔
        (n ≠ [] ∨ d ≠ [] ∨ o ≠ [])) ∧
    validate_entities (EntitySet.toDict ⟨[], [], []⟩) = false := by
  refine ⟨?_, by decide⟩
  intro n d o
  simp [validate_entities, EntitySet.toDict, PyVal.len, List.length_eq_zero]

/-- Claim C10: the rollback error record passes `validate_entities`,
because the check ranges over whatever values the given mapping holds and
the single error message value is non-empty. -/
theorem validate_entities_rollback_record_passes :
    validate_entities rollbackEntitiesDict = true := by decide

end GenAI
